import Mathlib

/-!
# Verification of the weewxstats2social daily statistics engine

Shallow embedding of the statistics core of `main.go`: the daily stats
aggregator `getStats`, the rain-rollup lookup with its fallback query, the
sunshine-hour bucket counting, the two backward streak scans of
`runWeatherPosting`, and the report composer (emoji selection, title and
body construction).

Modelling conventions:
* Go `float64` values are modelled as `ℚ`.  The `NaN` sentinel used for
  temperature extremes is modelled as `none : Option ℚ` (the source only
  ever produces `NaN` through `math.NaN()` on a NULL aggregate and only
  ever consumes it through `math.IsNaN`).
* A `sql.NullFloat64` scanned from a row is modelled as `Option ℚ`
  (`none` = SQL NULL, i.e. `Valid == false`).
* The result of a `QueryRow(...).Scan(...)` call is modelled as
  `Option (Option ℚ)`: `none` models `err != nil` (the source does not
  distinguish `sql.ErrNoRows` from a query-execution failure at these call
  sites), `some v` models a successfully scanned row holding the nullable
  value `v`.
* The local-time hour derivation `time.Unix(ts, 0).In(loc).Hour()` is
  modelled as an arbitrary function `hourOf : ℤ → ℕ` supplied as a
  parameter (it is a pure function of the timestamp once the location is
  fixed).
-/

/-- Threshold constant `sunThreshold = 120.0` from the `const` block of
`main.go` (W/m² above which an hour counts as a sunshine hour). -/
def sunThreshold : ℚ := 120

/-- Threshold constant `drySpellThreshold = 3` from the `const` block of
`main.go` (days without rain before the post mentions it). -/
def drySpellThreshold : ℕ := 3

/-- One row of the `archive` table as scanned by the hourly query of
`getStats`: `dateTime`, nullable `rain`, nullable `maxSolarRad`. -/
structure Reading where
  ts : ℤ
  rain : Option ℚ
  maxSolarRad : Option ℚ
deriving DecidableEq, Repr

/-- The `dayStats` struct of `main.go`.  `tMax`/`tMin` are `none` where the
source stores `math.NaN()` (NULL aggregate over the window). -/
structure dayStats where
  tMax : Option ℚ
  tMin : Option ℚ
  rainSum : ℚ
  sunHours : ℕ
deriving DecidableEq, Repr

/-- Result of the daily-rain lookup of `getStats` (step 2 of the
function).  `rainSum` is the value stored into `s.rainSum`;
`usedFallback` records whether the fallback time-span query
(`qRainFallback`) was issued, i.e. whether the `err != nil` branch of the
exact-midnight query was taken; `warned` records whether one of the
`fmt.Fprintf(os.Stderr, "Warnung: ...")` diagnostics fired. -/
structure RainLookup where
  rainSum : ℚ
  usedFallback : Bool
  warned : Bool
deriving DecidableEq, Repr

/-- The daily-rain lookup of `getStats` (`main.go` lines 82–104):
query `SELECT sum FROM archive_day_rain WHERE dateTime = ?` at the exact
local-midnight timestamp; on scan error fall back to
`SELECT sum ... WHERE dateTime >= ? AND dateTime < ?` over the window;
a found non-NULL value is multiplied by 10 (the unit-correction), any
missing or NULL outcome yields 0 with a warning. -/
def rainLookup (exact fallback : Option (Option ℚ)) : RainLookup :=
  match exact with
  | none =>
    match fallback with
    | none => { rainSum := 0, usedFallback := true, warned := true }
    | some (some v) => { rainSum := v * 10, usedFallback := true, warned := false }
    | some none => { rainSum := 0, usedFallback := true, warned := true }
  | some (some v) => { rainSum := v * 10, usedFallback := false, warned := false }
  | some none => { rainSum := 0, usedFallback := false, warned := true }

/-- Does a scanned `archive` row qualify as a sunshine sample
(`maxSolarRad.Valid && maxSolarRad.Float64 >= sunThreshold`)? -/
def qualRow (r : Reading) : Bool :=
  match r.maxSolarRad with
  | some v => decide (sunThreshold ≤ v)
  | none => false

/-- Loop body of the sunshine computation of `getStats`: derive the local
hour of the row and record it in the `seenSun` set when the row
qualifies. -/
def sunStep (hourOf : ℤ → ℕ) (seen : Finset ℕ) (r : Reading) : Finset ℕ :=
  match r.maxSolarRad with
  | some v => if sunThreshold ≤ v then insert (hourOf r.ts) seen else seen
  | none => seen

/-- The sunshine-hour computation of `getStats` (`main.go` lines 106–135):
fold the rows through `seenSun` and take the size of the set. -/
def sunHoursCalc (hourOf : ℤ → ℕ) (rows : List Reading) : ℕ :=
  (rows.foldl (sunStep hourOf) (∅ : Finset ℕ)).card

/-- `getStats` of `main.go`, over already-scanned query results: the
summary query's `MAX(outTemp)`/`MIN(outTemp)` (NULL ↦ NaN ↦ `none`), the
two rain-rollup query outcomes, and the hourly rows for the sunshine
count.  (Query-execution failures of the summary and hourly queries make
the source return early with an error; those aborted paths produce no
`dayStats` and are not modelled here.) -/
def getStats (tMaxRow tMinRow : Option ℚ) (exact fallback : Option (Option ℚ))
    (hourOf : ℤ → ℕ) (rows : List Reading) : dayStats :=
  { tMax := tMaxRow
    tMin := tMinRow
    rainSum := (rainLookup exact fallback).rainSum
    sunHours := sunHoursCalc hourOf rows }

/-- The wetness test applied to a scanned rollup value in both streak
loops of `runWeatherPosting`:
`rainSum.Valid && rainSum.Float64 * 10.0 > 0`. -/
def wetVal : Option ℚ → Bool
  | some v => decide (v * 10 > 0)
  | none => false

/-- The dry-streak loop body of `runWeatherPosting` (`main.go` lines
501–514).  `hist i` is the outcome of the rollup query for the day `i`
days before the reference day; `fuel` is the number of loop iterations
remaining (the source loop `for i := 1; i < 30; i++` performs at most 29
iterations).  A scan error or absent row stops the loop, a wet value
stops the loop, anything else (including a NULL sum) counts one dry day
and continues. -/
def dryScanAux (hist : ℕ → Option (Option ℚ)) : ℕ → ℕ → ℕ
  | 0, _ => 0
  | fuel + 1, i =>
    match hist i with
    | none => 0
    | some r => if wetVal r then 0 else dryScanAux hist fuel (i + 1) + 1

/-- `daysSinceRain` as computed by `runWeatherPosting`: dry-streak scan
starting one day back, at most 29 iterations (`for i := 1; i < 30`). -/
def daysSinceRain (hist : ℕ → Option (Option ℚ)) : ℕ :=
  dryScanAux hist 29 1

/-- The wet-streak loop body of `runWeatherPosting` (`main.go` lines
522–536): a wet value counts one rain day and continues, anything else
(scan error, absent row, NULL sum, dry value) stops the loop. -/
def wetScanAux (hist : ℕ → Option (Option ℚ)) : ℕ → ℕ → ℕ
  | 0, _ => 0
  | fuel + 1, i =>
    match hist i with
    | none => 0
    | some r => if wetVal r then wetScanAux hist fuel (i + 1) + 1 else 0

/-- `consecutiveRainDays` as computed by `runWeatherPosting`: wet-streak
scan starting one day back, at most 29 iterations. -/
def consecutiveRainDays (hist : ℕ → Option (Option ℚ)) : ℕ :=
  wetScanAux hist 29 1

section StreakLemmas

variable (hist : ℕ → Option (Option ℚ))

theorem dryScanAux_le_fuel : ∀ fuel i, dryScanAux hist fuel i ≤ fuel := by
  intro fuel
  induction fuel with
  | zero => intro i; simp [dryScanAux]
  | succ n ih =>
    intro i
    cases h : hist i with
    | none => simp [dryScanAux, h]
    | some r =>
      cases hw : wetVal r with
      | false =>
        simp only [dryScanAux, h, hw, if_false]
        exact Nat.succ_le_succ (ih _)
      | true => simp [dryScanAux, h, hw]

theorem wetScanAux_le_fuel : ∀ fuel i, wetScanAux hist fuel i ≤ fuel := by
  intro fuel
  induction fuel with
  | zero => intro i; simp [wetScanAux]
  | succ n ih =>
    intro i
    cases h : hist i with
    | none => simp [wetScanAux, h]
    | some r =>
      cases hw : wetVal r with
      | false => simp [wetScanAux, h, hw]
      | true =>
        simp only [wetScanAux, h, hw, if_true]
        exact Nat.succ_le_succ (ih _)

theorem dryScanAux_ge : ∀ fuel i m, m ≤ fuel →
    (∀ j, i ≤ j → j < i + m → ∃ r, hist j = some r ∧ wetVal r = false) →
    m ≤ dryScanAux hist fuel i := by
  intro fuel
  induction fuel with
  | zero => intro i m hm _; omega
  | succ n ih =>
    intro i m hm hdry
    match m with
    | 0 => exact Nat.zero_le _
    | m' + 1 =>
      obtain ⟨r, hri, hwr⟩ := hdry i le_rfl (by omega)
      simp only [dryScanAux, hri, hwr, if_false]
      exact Nat.succ_le_succ
        (ih (i + 1) m' (by omega) (fun j hj1 hj2 => hdry j (by omega) (by omega)))

theorem wetScanAux_ge : ∀ fuel i m, m ≤ fuel →
    (∀ j, i ≤ j → j < i + m → ∃ r, hist j = some r ∧ wetVal r = true) →
    m ≤ wetScanAux hist fuel i := by
  intro fuel
  induction fuel with
  | zero => intro i m hm _; omega
  | succ n ih =>
    intro i m hm hwet
    match m with
    | 0 => exact Nat.zero_le _
    | m' + 1 =>
      obtain ⟨r, hri, hwr⟩ := hwet i le_rfl (by omega)
      simp only [wetScanAux, hri, hwr, if_true]
      exact Nat.succ_le_succ
        (ih (i + 1) m' (by omega) (fun j hj1 hj2 => hwet j (by omega) (by omega)))

theorem dryScanAux_stop : ∀ fuel i, dryScanAux hist fuel i < fuel →
    hist (i + dryScanAux hist fuel i) = none ∨
      ∃ r, hist (i + dryScanAux hist fuel i) = some r ∧ wetVal r = true := by
  intro fuel
  induction fuel with
  | zero => intro i h; omega
  | succ n ih =>
    intro i hlt
    cases h : hist i with
    | none =>
      left
      simp [dryScanAux, h]
    | some r =>
      cases hw : wetVal r with
      | true =>
        right
        exact ⟨r, by simp [dryScanAux, h, hw], hw⟩
      | false =>
        have hrw : dryScanAux hist (n + 1) i = dryScanAux hist n (i + 1) + 1 := by
          simp [dryScanAux, h, hw]
        rw [hrw] at hlt ⊢
        have := ih (i + 1) (by omega)
        have harith : i + 1 + dryScanAux hist n (i + 1) =
            i + (dryScanAux hist n (i + 1) + 1) := by omega
        rw [harith] at this
        exact this

theorem wetScanAux_le_stop : ∀ fuel i m,
    (∀ r, hist (i + m) = some r → wetVal r = false) →
    wetScanAux hist fuel i ≤ m := by
  intro fuel
  induction fuel with
  | zero => intro i m _; simp [wetScanAux]
  | succ n ih =>
    intro i m hstop
    cases h : hist i with
    | none => simp [wetScanAux, h]
    | some r =>
      cases hw : wetVal r with
      | false => simp [wetScanAux, h, hw]
      | true =>
        simp only [wetScanAux, h, hw, if_true]
        match m with
        | 0 =>
          exact absurd (hstop r (by simpa using h)) (by simp [hw])
        | m' + 1 =>
          have : wetScanAux hist n (i + 1) ≤ m' := by
            apply ih
            intro r' hr'
            apply hstop
            have : i + 1 + m' = i + (m' + 1) := by omega
            rwa [this] at hr'
          omega

end StreakLemmas

/-- One-decimal rendering of a rational, modelling the `%.1f` verb used by
`fmt.Sprintf` in `main.go` (round to the nearest tenth; the exact
tie-breaking of the binary-float formatter is immaterial to every claim
proved below, which only concern the structure of the composed strings). -/
def fmt1 (q : ℚ) : String :=
  (if round (q * 10) < 0 then "-" else "")
    ++ toString ((round (q * 10)).natAbs / 10) ++ "."
    ++ toString ((round (q * 10)).natAbs % 10)

/-- The `weatherText` body composed by `runWeatherPosting` (`main.go`
lines 517–547): the fixed rain/sunshine template plus the two conditional
streak appendices. -/
def weatherText (statsY statsV : dayStats) (daysSince consecutive : ℕ) : String :=
  "Niederschlag: " ++ fmt1 statsY.rainSum ++ " mm (Vortag: " ++ fmt1 statsV.rainSum
    ++ " mm), Sonnenstunden: " ++ toString statsY.sunHours ++ " h (Vortag: "
    ++ toString statsV.sunHours
    ++ " h) Details: https://groloe.wetter.foxel.org/week.html"
  ++ (if drySpellThreshold ≤ daysSince then
        (if statsY.rainSum > 0 then
          "\nEs hat nach " ++ toString daysSince ++ " Tagen wieder geregnet."
        else
          "\nEs hat seit " ++ toString daysSince ++ " Tagen nicht mehr geregnet.")
      else "")
  ++ (if drySpellThreshold ≤ consecutive then
        "\nEs regnet seit " ++ toString consecutive ++ " Tagen jeden Tag."
      else "")

/-- The emoji list built by `runWeatherPosting` (`main.go` lines 549–569)
from yesterday's stats, in source order: rain, heat tier (else-chain),
frost, freeze, warm night.  The string literals carry the trailing space
present in the source. -/
def emojiList (tMax tMin rainSum : ℚ) : List String :=
  (if rainSum > 0 then ["🌧️ "] else [])
  ++ (if 35 ≤ tMax then ["🏜️ "]
      else if 30 ≤ tMax then ["🌡️ "]
      else if 25 ≤ tMax then ["☀️ "]
      else [])
  ++ (if tMin < 0 then ["❄️ "] else [])
  ++ (if tMax < 0 then ["🧊 "] else [])
  ++ (if 20 ≤ tMin then ["🌙 "] else [])

/-- The `emojiString` of `runWeatherPosting` (`main.go` lines 572–575):
join with single spaces and append one trailing space, empty when no rule
fired. -/
def emojiString (emojis : List String) : String :=
  if emojis.length > 0 then String.intercalate " " emojis ++ " " else ""

/-- The fixed part of the title template of `runWeatherPosting`
(`main.go` lines 577–581), after the emoji placeholder. -/
def baseTitle (yMax yMin vMax vMin : ℚ) (dateLabel : String) : String :=
  "Wetterstatistik für Overath " ++ dateLabel ++ ": Temperatur "
    ++ fmt1 yMax ++ " bis " ++ fmt1 yMin ++ " °C (Vortag: "
    ++ fmt1 vMax ++ " bis " ++ fmt1 vMin ++ "°C)"

/-- The full title of `runWeatherPosting`: emoji string prefixed to the
fixed template. -/
def mkTitle (yMax yMin vMax vMin rainSum : ℚ) (dateLabel : String) : String :=
  emojiString (emojiList yMax yMin rainSum) ++ baseTitle yMax yMin vMax vMin dateLabel

/-- The outputs of one reporting cycle of `runWeatherPosting` that are
composed after the NaN guard passes. -/
structure ReportOut where
  title : String
  body : String
  daysSinceRain : ℕ
  consecutiveRainDays : ℕ
deriving DecidableEq, Repr

/-- `runWeatherPosting` from the NaN guard onward (`main.go` lines
494–581), over the two aggregated `dayStats` and the rollup history used
by the streak scans.  `none` models the skipped reporting cycle: the
source logs a warning and returns before the streak scans, the
composition of `weatherText` and `title`, and every publish attempt. -/
def runReport (statsY statsV : dayStats) (hist : ℕ → Option (Option ℚ))
    (dateLabel : String) : Option ReportOut :=
  match statsY.tMax, statsY.tMin, statsV.tMax, statsV.tMin with
  | some yMax, some yMin, some vMax, some vMin =>
    some
      { title := mkTitle yMax yMin vMax vMin statsY.rainSum dateLabel
        body := weatherText statsY statsV (daysSinceRain hist) (consecutiveRainDays hist)
        daysSinceRain := daysSinceRain hist
        consecutiveRainDays := consecutiveRainDays hist }
  | _, _, _, _ => none

/-- Modelled from the spec: the ordered, non-exclusive emoji rule set of
§4.4 as a literal list of (fired?, emoji) pairs — rain, then the mutually
exclusive heat tier, then frost, freeze, warm night.  Used as the
refinement target for the emoji-ordering claim. -/
def specEmojiRules (tMax tMin rainSum : ℚ) : List (Bool × String) :=
  [ (decide (rainSum > 0), "🌧️ ")
  , (decide (35 ≤ tMax), "🏜️ ")
  , (decide (tMax < 35 ∧ 30 ≤ tMax), "🌡️ ")
  , (decide (tMax < 30 ∧ 25 ≤ tMax), "☀️ ")
  , (decide (tMin < 0), "❄️ ")
  , (decide (tMax < 0), "🧊 ")
  , (decide (20 ≤ tMin), "🌙 ") ]

theorem sunStep_eq (hourOf : ℤ → ℕ) (s : Finset ℕ) (r : Reading) :
    sunStep hourOf s r = if qualRow r then insert (hourOf r.ts) s else s := by
  cases h : r.maxSolarRad with
  | none => simp [sunStep, qualRow, h]
  | some v =>
    by_cases hv : sunThreshold ≤ v <;> simp [sunStep, qualRow, h, hv]

theorem sunFold_eq (hourOf : ℤ → ℕ) :
    ∀ (rows : List Reading) (s : Finset ℕ),
      rows.foldl (sunStep hourOf) s
        = s ∪ ((rows.filter qualRow).map fun r => hourOf r.ts).toFinset := by
  intro rows
  induction rows with
  | nil => intro s; simp
  | cons r rs ih =>
    intro s
    cases hq : qualRow r with
    | false =>
      simp only [List.foldl_cons, sunStep_eq, hq, if_false, List.filter_cons, ih]
      simp [hq]
    | true =>
      simp only [List.foldl_cons, sunStep_eq, hq, if_true, List.filter_cons, ih]
      simp only [hq, if_true, List.map_cons, List.toFinset_cons]
      rw [Finset.insert_union, Finset.union_insert]

/-- The else-chain heat tier of the emoji rules is equivalent to the three
mutually exclusive interval rules of the spec's ordered rule list. -/
theorem heatTier_filter (tMax : ℚ) :
    (if 35 ≤ tMax then ["🏜️ "]
     else if 30 ≤ tMax then ["🌡️ "]
     else if 25 ≤ tMax then ["☀️ "]
     else [])
    = (if 35 ≤ tMax then ["🏜️ "] else [])
      ++ (if tMax < 35 ∧ 30 ≤ tMax then ["🌡️ "] else [])
      ++ (if tMax < 30 ∧ 25 ≤ tMax then ["☀️ "] else []) := by
  by_cases h1 : 35 ≤ tMax
  · have h2 : ¬(tMax < 35 ∧ 30 ≤ tMax) := fun hc => absurd h1 (not_le.mpr hc.1)
    have h3 : ¬(tMax < 30 ∧ 25 ≤ tMax) := fun hc => by linarith [hc.1]
    simp [h1, h2, h3]
  · by_cases h2 : 30 ≤ tMax
    · have hc2 : tMax < 35 ∧ 30 ≤ tMax := ⟨not_le.mp h1, h2⟩
      have h3 : ¬(tMax < 30 ∧ 25 ≤ tMax) := fun hc => absurd h2 (not_le.mpr hc.1)
      simp [h1, hc2, h3]
    · by_cases h3 : 25 ≤ tMax
      · have hc3 : tMax < 30 ∧ 25 ≤ tMax := ⟨not_le.mp h2, h3⟩
        simp [h1, h2, hc3]
      · have hn2 : ¬(tMax < 35 ∧ 30 ≤ tMax) := fun hc => absurd hc.2 h2
        have hn3 : ¬(tMax < 30 ∧ 25 ≤ tMax) := fun hc => absurd hc.2 h3
        simp [h1, h2, h3, hn2, hn3]

/-- A rollup history that is dry (zero rain) on every lookback day. -/
def allDryHist : ℕ → Option (Option ℚ) := fun _ => some (some 0)

/-- A rollup history that is wet (positive rain) on every lookback day. -/
def allWetHist : ℕ → Option (Option ℚ) := fun _ => some (some 1)

/-- A rollup history whose first lookback day has a row with a NULL sum,
dry (zero) rows afterwards. -/
def nullThenDryHist : ℕ → Option (Option ℚ) := fun i =>
  if i = 1 then some none else some (some 0)

/-- A rollup history with wet rows on the first two lookback days and a
NULL-sum row afterwards. -/
def wetThenNullHist : ℕ → Option (Option ℚ) := fun i =>
  if i ≤ 2 then some (some 1) else some none

/-- C3: for every non-null rollup value returned by the store — via the
exact-midnight query or the time-span fallback — the aggregator's
`rainSum` equals the raw value multiplied by 10; in particular a raw
value of 1.23 yields `rainSum = 12.3`, and `rainSum` is 0 when no rollup
value is found on either path. -/
theorem claim_rain_scaling (exact fallback : Option (Option ℚ)) :
    (∀ v, exact = some (some v) → (rainLookup exact fallback).rainSum = v * 10)
    ∧ (∀ v, exact = none → fallback = some (some v) →
        (rainLookup exact fallback).rainSum = v * 10)
    ∧ (rainLookup (some (some (123 / 100))) none).rainSum = 123 / 10
    ∧ ((exact = none ∨ exact = some none) →
        (fallback = none ∨ fallback = some none) →
        (rainLookup exact fallback).rainSum = 0) := by
  refine ⟨?_, ?_, by norm_num [rainLookup], ?_⟩
  · rintro v rfl; rfl
  · rintro v rfl rfl; rfl
  · rintro (rfl | rfl) (rfl | rfl) <;> rfl

theorem claim_rain_scaling_witness :
    (rainLookup (some (some 2)) none).rainSum = 2 * 10 :=
  (claim_rain_scaling (some (some 2)) none).1 2 rfl

/-- C7: the daily-rain lookup first queries the rollup at the exact
local-midnight timestamp; the time-span fallback query is issued exactly
when that scan returns no row (or fails); if the fallback also yields
nothing, `rainSum` is 0, a warning (and not an error) is recorded, and
`getStats` still produces the full day statistics. -/
theorem claim_rain_fallback (tMaxRow tMinRow : Option ℚ)
    (exact fallback : Option (Option ℚ)) (hourOf : ℤ → ℕ) (rows : List Reading) :
    ((rainLookup exact fallback).usedFallback = true ↔ exact = none)
    ∧ (exact = none → fallback = none →
        (rainLookup exact fallback).rainSum = 0
          ∧ (rainLookup exact fallback).warned = true)
    ∧ getStats tMaxRow tMinRow none none hourOf rows
        = { tMax := tMaxRow, tMin := tMinRow, rainSum := 0,
            sunHours := sunHoursCalc hourOf rows } := by
  refine ⟨?_, ?_, rfl⟩
  · cases exact with
    | none =>
      cases fallback with
      | none => simp [rainLookup]
      | some r => cases r <;> simp [rainLookup]
    | some r => cases r <;> simp [rainLookup]
  · rintro rfl rfl; exact ⟨rfl, rfl⟩

theorem claim_rain_fallback_witness :
    (rainLookup none none).rainSum = 0 ∧ (rainLookup none none).warned = true :=
  (claim_rain_fallback none none none none (fun _ => 0) []).2.1 rfl rfl

/-- C10: the fallback time-span query is issued only when the
exact-midnight scan itself fails to return a row; when the exact-midnight
row exists but its sum is NULL, `rainSum` is 0 with a warning and the
fallback query is never issued, whatever it would have returned. -/
theorem claim_fallback_only_on_missing (exact fallback : Option (Option ℚ)) :
    (exact ≠ none → (rainLookup exact fallback).usedFallback = false)
    ∧ rainLookup (some none) fallback
        = { rainSum := 0, usedFallback := false, warned := true } := by
  constructor
  · intro h
    cases exact with
    | none => exact absurd rfl h
    | some r => cases r <;> rfl
  · rfl

theorem claim_fallback_only_on_missing_witness :
    (rainLookup (some none) none).usedFallback = false :=
  (claim_fallback_only_on_missing (some none) none).1 (by decide)

/-- C8 (amended): `rainSum` is zero-or-positive whenever the stored
rollup values are zero-or-positive (the source multiplies the raw value
by 10 without clamping, so a negative stored value would propagate), and
it is exactly zero when no rollup row exists. -/
theorem claim_rain_nonneg (exact fallback : Option (Option ℚ)) :
    ((∀ v, exact = some (some v) → 0 ≤ v) →
      (∀ v, fallback = some (some v) → 0 ≤ v) →
      0 ≤ (rainLookup exact fallback).rainSum)
    ∧ ((exact = none ∨ exact = some none) →
        (fallback = none ∨ fallback = some none) →
        (rainLookup exact fallback).rainSum = 0) := by
  constructor
  · intro he hf
    cases exact with
    | some r =>
      cases r with
      | none => norm_num [rainLookup]
      | some v =>
        show 0 ≤ v * 10
        exact mul_nonneg (he v rfl) (by norm_num)
    | none =>
      cases fallback with
      | none => norm_num [rainLookup]
      | some r =>
        cases r with
        | none => norm_num [rainLookup]
        | some v =>
          show 0 ≤ v * 10
          exact mul_nonneg (hf v rfl) (by norm_num)
  · rintro (rfl | rfl) (rfl | rfl) <;> rfl

/-- C8 counterexample: a stored rollup value of −1 (accepted by the
aggregator without complaint) produces `rainSum = −10 < 0`, so `rainSum`
is not always zero-or-positive. -/
theorem claim_rain_nonneg_cex :
    (rainLookup (some (some (-1))) none).rainSum = -10
    ∧ ¬ 0 ≤ (rainLookup (some (some (-1))) none).rainSum := by
  constructor <;> norm_num [rainLookup]

theorem claim_rain_nonneg_witness :
    0 ≤ (rainLookup (some none) none).rainSum := by
  apply (claim_rain_nonneg (some none) none).1
  · intro v hv; simp at hv
  · intro v hv; simp at hv

/-- C1 (amended): both backward streak scans perform at most 29
iterations (the source loop is `for i := 1; i < 30; i++`), so an
unbroken 40-day dry history yields `daysSinceRain = 29` — never 40 — and
the same 29-day cap bounds `consecutiveRainDays` for an unbroken wet
history. -/
theorem claim_streak_cap (hist : ℕ → Option (Option ℚ)) :
    daysSinceRain hist ≤ 29 ∧ consecutiveRainDays hist ≤ 29
    ∧ ((∀ i, 1 ≤ i → i ≤ 40 → ∃ r, hist i = some r ∧ wetVal r = false) →
        daysSinceRain hist = 29)
    ∧ ((∀ i, 1 ≤ i → i ≤ 40 → ∃ r, hist i = some r ∧ wetVal r = true) →
        consecutiveRainDays hist = 29) := by
  refine ⟨dryScanAux_le_fuel hist 29 1, wetScanAux_le_fuel hist 29 1, ?_, ?_⟩
  · intro hdry
    refine le_antisymm (dryScanAux_le_fuel hist 29 1) ?_
    exact dryScanAux_ge hist 29 1 29 le_rfl (fun j hj1 hj2 => hdry j hj1 (by omega))
  · intro hwet
    refine le_antisymm (wetScanAux_le_fuel hist 29 1) ?_
    exact wetScanAux_ge hist 29 1 29 le_rfl (fun j hj1 hj2 => hwet j hj1 (by omega))

theorem claim_streak_cap_witness :
    daysSinceRain allDryHist = 29 ∧ consecutiveRainDays allWetHist = 29 := by
  constructor
  · exact (claim_streak_cap allDryHist).2.2.1
      (fun i _ _ => ⟨some 0, rfl, by simp [wetVal]⟩)
  · exact (claim_streak_cap allWetHist).2.2.2
      (fun i _ _ => ⟨some 1, rfl, by simp [wetVal]⟩)

/-- C1 counterexample: on the 40-day-unbroken-dry history (dry on every
lookback day) the dry-streak scan reports 29, not the 30 the claim
states. -/
theorem claim_streak_cap_cex :
    daysSinceRain allDryHist = 29 ∧ ¬ daysSinceRain allDryHist = 30 := by
  have h29 : daysSinceRain allDryHist = 29 :=
    le_antisymm (dryScanAux_le_fuel allDryHist 29 1)
      (dryScanAux_ge allDryHist 29 1 29 le_rfl
        (fun j _ _ => ⟨some 0, rfl, by simp [wetVal]⟩))
  exact ⟨h29, by rw [h29]; omega⟩

/-- C4: after both backward streak scans, at most one of `daysSinceRain`
and `consecutiveRainDays` is non-zero; a wet first lookback day forces
`daysSinceRain = 0`, a dry first lookback day (a row whose scaled value
is not positive, NULL included) forces `consecutiveRainDays = 0`, and
both are zero exactly when the very first lookback day's rollup query
fails or returns no row. -/
theorem claim_streak_exclusivity (hist : ℕ → Option (Option ℚ)) :
    (daysSinceRain hist = 0 ∨ consecutiveRainDays hist = 0)
    ∧ (∀ r, hist 1 = some r → wetVal r = true → daysSinceRain hist = 0)
    ∧ (∀ r, hist 1 = some r → wetVal r = false → consecutiveRainDays hist = 0)
    ∧ ((daysSinceRain hist = 0 ∧ consecutiveRainDays hist = 0) ↔ hist 1 = none) := by
  cases h : hist 1 with
  | none =>
    have h1 : daysSinceRain hist = 0 := by simp [daysSinceRain, dryScanAux, h]
    have h2 : consecutiveRainDays hist = 0 := by simp [consecutiveRainDays, wetScanAux, h]
    exact ⟨Or.inl h1, fun r _ _ => h1, fun r _ _ => h2, by simp [h1, h2, h]⟩
  | some r =>
    cases hw : wetVal r with
    | true =>
      have h1 : daysSinceRain hist = 0 := by simp [daysSinceRain, dryScanAux, h, hw]
      have h2 : consecutiveRainDays hist = wetScanAux hist 28 2 + 1 := by
        simp [consecutiveRainDays, wetScanAux, h, hw]
      refine ⟨Or.inl h1, fun r' _ _ => h1, ?_, ?_⟩
      · intro r' hr' hw'
        have he : r = r' := Option.some.inj hr'
        subst he
        simp [hw] at hw'
      · constructor
        · intro hcon
          exact absurd hcon.2 (by rw [h2]; omega)
        · intro hnone
          exact Option.noConfusion hnone
    | false =>
      have h1 : daysSinceRain hist = dryScanAux hist 28 2 + 1 := by
        simp [daysSinceRain, dryScanAux, h, hw]
      have h2 : consecutiveRainDays hist = 0 := by
        simp [consecutiveRainDays, wetScanAux, h, hw]
      refine ⟨Or.inr h2, ?_, fun r' _ _ => h2, ?_⟩
      · intro r' hr' hw'
        have he : r = r' := Option.some.inj hr'
        subst he
        simp [hw] at hw'
      · constructor
        · intro hcon
          exact absurd hcon.1 (by rw [h1]; omega)
        · intro hnone
          exact Option.noConfusion hnone

theorem claim_streak_exclusivity_witness :
    daysSinceRain allWetHist = 0 ∧ consecutiveRainDays allDryHist = 0 := by
  constructor
  · exact (claim_streak_exclusivity allWetHist).2.1 (some 1) rfl (by simp [wetVal])
  · exact (claim_streak_exclusivity allDryHist).2.2.1 (some 0) rfl (by simp [wetVal])

/-- C9: a rollup row that exists with a NULL sum is treated as a dry day
rather than as end-of-history: the dry-streak scan counts it and keeps
scanning past it (every ≤29-day run of rows whose value is not positive,
NULL rows included, is counted in full), the wet-streak scan terminates
at it, and the dry-streak scan never stops early at a NULL-sum row — the
row it stops at is an errored/absent one or a wet one. -/
theorem claim_null_sum_dry (hist : ℕ → Option (Option ℚ)) :
    (∀ m, m ≤ 29 →
      (∀ i, 1 ≤ i → i ≤ m → ∃ r, hist i = some r ∧ wetVal r = false) →
      m ≤ daysSinceRain hist)
    ∧ (∀ k, 1 ≤ k → k ≤ 29 →
        (∀ i, 1 ≤ i → i < k → ∃ r, hist i = some r ∧ wetVal r = true) →
        hist k = some none → consecutiveRainDays hist = k - 1)
    ∧ (daysSinceRain hist < 29 →
        (hist (daysSinceRain hist + 1) = none
          ∨ ∃ r, hist (daysSinceRain hist + 1) = some r ∧ wetVal r = true))
    ∧ (daysSinceRain hist < 29 → hist (daysSinceRain hist + 1) ≠ some none) := by
  have hstop : daysSinceRain hist < 29 →
      (hist (daysSinceRain hist + 1) = none
        ∨ ∃ r, hist (daysSinceRain hist + 1) = some r ∧ wetVal r = true) := by
    intro hlt
    have h := dryScanAux_stop hist 29 1 hlt
    rw [Nat.add_comm 1 (dryScanAux hist 29 1)] at h
    exact h
  refine ⟨?_, ?_, hstop, ?_⟩
  · intro m hm hdry
    exact dryScanAux_ge hist 29 1 m hm (fun j hj1 hj2 => hdry j hj1 (by omega))
  · intro k hk1 hk2 hwet hnull
    refine le_antisymm ?_ ?_
    · apply wetScanAux_le_stop
      intro r hr
      have hk : 1 + (k - 1) = k := by omega
      rw [hk, hnull] at hr
      injection hr with he
      rw [← he]
      rfl
    · exact wetScanAux_ge hist 29 1 (k - 1) (by omega)
        (fun j hj1 hj2 => hwet j hj1 (by omega))
  · intro hlt hcontra
    rcases hstop hlt with h | ⟨r, hr, hw⟩
    · rw [hcontra] at h
      cases h
    · rw [hcontra] at hr
      injection hr with he
      rw [← he] at hw
      cases hw

theorem claim_null_sum_dry_witness :
    2 ≤ daysSinceRain nullThenDryHist
    ∧ consecutiveRainDays wetThenNullHist = 2 := by
  constructor
  · apply (claim_null_sum_dry nullThenDryHist).1 2 (by omega)
    intro i h1 h2
    interval_cases i
    · exact ⟨none, rfl, rfl⟩
    · exact ⟨some 0, rfl, by simp [wetVal]⟩
  · have h := (claim_null_sum_dry wetThenNullHist).2.1 3 (by omega) (by omega)
      (fun i h1 h2 => ⟨some 1, by
        have hle : i ≤ 2 := by omega
        simp [wetThenNullHist, hle], by simp [wetVal]⟩)
      (by simp [wetThenNullHist])
    simpa using h

/-- C5: whenever any of the four temperature extremes (yesterday's or the
prior day's `tMax`/`tMin`) is the NaN sentinel, the reporting cycle is
skipped entirely after the logged warning: `runReport` returns `none`, so
no title or body is composed, the streak scans are not run, and nothing
is handed to the publishers. -/
theorem claim_nan_guard (statsY statsV : dayStats) (hist : ℕ → Option (Option ℚ))
    (dateLabel : String) :
    (statsY.tMax = none ∨ statsY.tMin = none ∨ statsV.tMax = none ∨ statsV.tMin = none) →
    runReport statsY statsV hist dateLabel = none := by
  intro h
  cases hA : statsY.tMax <;> cases hB : statsY.tMin <;>
    cases hC : statsV.tMax <;> cases hD : statsV.tMin <;>
      simp_all [runReport]

theorem claim_nan_guard_witness :
    runReport ⟨none, some 5, 0, 0⟩ ⟨some 4, some 1, 0, 0⟩ (fun _ => none)
      "01.01.2026" = none :=
  claim_nan_guard ⟨none, some 5, 0, 0⟩ ⟨some 4, some 1, 0, 0⟩ (fun _ => none)
    "01.01.2026" (Or.inl rfl)

/-- C2: `sunHours` equals the number of distinct hour-of-day buckets
(derived by the local-time hour function) containing at least one reading
whose solar radiation is ≥ 120; two qualifying samples within the same
local hour count once, qualifying samples in two different local hours
count twice, and a day with no qualifying sample yields 0. -/
theorem claim_sun_hours (hourOf : ℤ → ℕ) (rows : List Reading) :
    sunHoursCalc hourOf rows
        = ((rows.filter qualRow).map fun r => hourOf r.ts).toFinset.card
    ∧ ((∀ r ∈ rows, qualRow r = false) → sunHoursCalc hourOf rows = 0)
    ∧ sunHoursCalc (fun ts => ts.toNat / 3600 % 24)
        [⟨100, none, some 150⟩, ⟨200, none, some 130⟩] = 1
    ∧ sunHoursCalc (fun ts => ts.toNat / 3600 % 24)
        [⟨100, none, some 150⟩, ⟨7300, none, some 130⟩] = 2
    ∧ sunHoursCalc (fun ts => ts.toNat / 3600 % 24)
        [⟨100, none, some 50⟩, ⟨200, none, none⟩] = 0 := by
  have hmain : ∀ (h : ℤ → ℕ) (l : List Reading), sunHoursCalc h l
      = ((l.filter qualRow).map fun r => h r.ts).toFinset.card := by
    intro h l
    unfold sunHoursCalc
    rw [sunFold_eq, Finset.empty_union]
  refine ⟨hmain hourOf rows, ?_, ?_, ?_, ?_⟩
  · intro hnone
    rw [hmain]
    have hfil : rows.filter qualRow = [] := by
      rw [List.filter_eq_nil_iff]
      intro a ha
      simp [hnone a ha]
    rw [hfil]
    rfl
  · rw [hmain]
    norm_num [qualRow, sunThreshold]
    decide
  · rw [hmain]
    norm_num [qualRow, sunThreshold]
    decide
  · rw [hmain]
    norm_num [qualRow, sunThreshold]

theorem claim_sun_hours_witness :
    sunHoursCalc (fun _ => 0) [⟨0, none, some 50⟩] = 0 := by
  apply (claim_sun_hours (fun _ => 0) [⟨0, none, some 50⟩]).2.1
  intro r hr
  rw [List.mem_singleton] at hr
  subst hr
  norm_num [qualRow, sunThreshold]

theorem filterMap_cons (a : Bool × String) (l : List (Bool × String)) :
    ((a :: l).filter Prod.fst).map Prod.snd
      = (if a.1 = true then [a.2] else []) ++ (l.filter Prod.fst).map Prod.snd := by
  cases h : a.1 <;> simp [List.filter_cons, h]

/-- C6: the title's emoji prefix evaluates the rules in the fixed order
rain, heat tier (mutually exclusive else-chain), frost, freeze,
warm-night — the emoji list refines the spec's ordered rule list — and
the fired emojis are joined with single spaces and prefixed to the title
exactly when at least one fired; `tMax = 36`, `tMin = −1`, `rainSum = 5`
renders rain, heatwave, frost in that order. -/
theorem claim_emoji_order (tMax tMin rainSum : ℚ) :
    emojiList tMax tMin rainSum
        = ((specEmojiRules tMax tMin rainSum).filter Prod.fst).map Prod.snd
    ∧ (∀ vMax vMin dateLabel,
        mkTitle tMax tMin vMax vMin rainSum dateLabel
          = emojiString (emojiList tMax tMin rainSum)
              ++ baseTitle tMax tMin vMax vMin dateLabel)
    ∧ (emojiList tMax tMin rainSum = [] →
        emojiString (emojiList tMax tMin rainSum) = "")
    ∧ (emojiList tMax tMin rainSum ≠ [] →
        emojiString (emojiList tMax tMin rainSum)
          = String.intercalate " " (emojiList tMax tMin rainSum) ++ " ")
    ∧ emojiList 36 (-1) 5 = ["🌧️ ", "🏜️ ", "❄️ "] := by
  refine ⟨?_, fun _ _ _ => rfl, ?_, ?_, ?_⟩
  · unfold emojiList specEmojiRules
    rw [filterMap_cons, filterMap_cons, filterMap_cons, filterMap_cons,
      filterMap_cons, filterMap_cons, filterMap_cons]
    simp only [List.filter_nil, List.map_nil, List.append_nil, decide_eq_true_eq]
    rw [heatTier_filter]
    simp [List.append_assoc]
  · intro h
    simp [emojiString, h]
  · intro h
    have hlen : 0 < (emojiList tMax tMin rainSum).length := List.length_pos.mpr h
    simp [emojiString, hlen]
  · norm_num [emojiList]

theorem claim_emoji_order_witness :
    emojiString (emojiList 36 (-1) 5)
      = String.intercalate " " (emojiList 36 (-1) 5) ++ " " := by
  have h5 := (claim_emoji_order 36 (-1) 5).2.2.2.2
  exact (claim_emoji_order 36 (-1) 5).2.2.2.1 (by rw [h5]; simp)
